import Mathlib

/-!
Shallow embedding of the Raworc Bench client core: the cookie-backed token
store (`src/lib/cookies.ts`), the API gateway client (`src/lib/api-client.ts`),
the auth state controller (`src/contexts/AuthContext.tsx`), the workspace and
session list controllers (`WorkspaceList.tsx`, `SessionManager.tsx`,
`CreateWorkspaceModal.tsx`) and the mock server (`mock-server.js`).

Time is modelled as a natural-number timestamp (milliseconds); the persisted
cookie store is an explicit record threaded through the operations; network
calls are parametrised by their outcome so that the pure reconciliation logic
can be stated and proved.
-/

namespace RaworcBench

/-! ### Data model (src/types/api.ts) -/

/-- Embeds `User` from `src/types/api.ts`. -/
structure User where
  id : String
  username : String
  email : Option String
  roles : List String
deriving Repr, DecidableEq

/-- Embeds `AuthResponse` from `src/types/api.ts`; `expires_at` is the parsed
timestamp of the ISO string. -/
structure AuthResponse where
  token : String
  token_type : String
  expires_at : Nat
deriving Repr, DecidableEq

/-- Session status union from `src/types/api.ts`. -/
inductive SessionStatus
  | running
  | stopped
  | pending
  | error
deriving Repr, DecidableEq

/-- Embeds `container_info` payload of a session. -/
structure ContainerInfo where
  image : String
  ports : List Nat
  environment : List (String × String)
deriving Repr, DecidableEq

/-- Embeds `Session` from `src/types/api.ts`. -/
structure Session where
  id : String
  workspace_id : String
  name : String
  status : SessionStatus
  created_at : String
  updated_at : String
  container_info : Option ContainerInfo
deriving Repr, DecidableEq

/-- Embeds `Workspace` from `src/types/api.ts`. -/
structure Workspace where
  id : String
  name : String
  description : Option String
  created_at : String
  updated_at : String
deriving Repr, DecidableEq

/-- Embeds `ApiError` from `src/types/api.ts`; the untyped `details?` field is
tracked only by its presence. -/
structure ApiError where
  message : String
  code : String
  hasDetails : Bool
deriving Repr, DecidableEq

/-- Embeds `ApiResponse` from `src/types/api.ts`: `{success: true, data}` or
`{success: false, error}`, as the honest sum. -/
inductive ApiResponse (α : Type)
  | ok (data : α)
  | err (e : ApiError)
deriving Repr, DecidableEq

/-- JavaScript `a || b` on strings: the empty string is falsy. -/
def jsOrStr (a b : String) : String :=
  if a.isEmpty then b else a

/-- JavaScript `a || b` where `a` may be `undefined`. -/
def jsOr (a : Option String) (b : String) : String :=
  match a with
  | some s => jsOrStr s b
  | none => b

/-! ### Token store (src/lib/cookies.ts)

The two cookies `raworc_auth_token` / `raworc_token_expires`, as a record;
the expiry cookie is kept as its parsed timestamp. -/

/-- The persisted cookie store: the token entry and the expiry entry. -/
structure CookieStore where
  token : Option String
  expiresAt : Option Nat
deriving Repr, DecidableEq

/-- The store with neither entry present. -/
def CookieStore.empty : CookieStore := ⟨none, none⟩

namespace TokenManager

/-- Embeds `TokenManager.setToken`: persists both values. -/
def setToken (_store : CookieStore) (tok : String) (expiresAt : Nat) : CookieStore :=
  ⟨some tok, some expiresAt⟩

/-- Embeds `TokenManager.clearToken`: removes both entries unconditionally. -/
def clearToken (_store : CookieStore) : CookieStore :=
  CookieStore.empty

/-- Embeds `TokenManager.getToken`: returns `null` when either cookie is missing
(without touching the store); when both are present and
`new Date(expiresAt) <= new Date()`, clears the store and returns `null`;
otherwise returns the token. Returns the result together with the store
after the call. -/
def getToken (store : CookieStore) (now : Nat) : Option String × CookieStore :=
  match store.token, store.expiresAt with
  | some tok, some exp =>
      if exp ≤ now then (none, clearToken store) else (some tok, store)
  | _, _ => (none, store)

/-- Embeds `TokenManager.isAuthenticated`: `getToken() !== null`, including the
clearing side effect of `getToken`. -/
def isAuthenticated (store : CookieStore) (now : Nat) : Bool × CookieStore :=
  let (tok, store2) := getToken store now
  (tok.isSome, store2)

/-- Embeds `TokenManager.getTokenExpiration`: reads the expiry cookie directly. -/
def getTokenExpiration (store : CookieStore) : Option Nat :=
  store.expiresAt

/-- Embeds `TokenManager.isTokenExpiringSoon`: expiry within five minutes of now. -/
def isTokenExpiringSoon (store : CookieStore) (now : Nat) : Bool :=
  match getTokenExpiration store with
  | none => false
  | some exp => exp ≤ now + 5 * 60 * 1000

/-- Embeds `TokenManager.getAuthHeader`: `Bearer ${token}` for a valid token,
`null` otherwise, with `getToken`'s side effect on the store. -/
def getAuthHeader (store : CookieStore) (now : Nat) : Option String × CookieStore :=
  let (tok, store2) := getToken store now
  (tok.map (fun t => "Bearer " ++ t), store2)

end TokenManager

/-! ### API gateway client (src/lib/api-client.ts) -/

/-- Char-list matching at the current position (helper for substring
containment). -/
def charsMatchHere : List Char → List Char → Bool
  | [], _ => true
  | _ :: _, [] => false
  | a :: as, b :: bs => a == b && charsMatchHere as bs

/-- Char-list substring containment (helper). -/
def charsContain (needle : List Char) : List Char → Bool
  | [] => charsMatchHere needle []
  | c :: cs => charsMatchHere needle (c :: cs) || charsContain needle cs

/-- JavaScript `hay.includes(needle)`: substring containment. -/
def strContains (hay needle : String) : Bool :=
  charsContain needle.data hay.data

/-- The remote operations of `RaworcApiClient`, one constructor per method,
with the path parameters the method interpolates into its URL. -/
inductive ApiOp
  | login
  | externalAuth
  | getCurrentUser
  | healthCheck
  | getVersion
  | getWorkspaces
  | getWorkspace (id : String)
  | createWorkspace
  | updateWorkspace (id : String)
  | deleteWorkspace (id : String)
  | getSessions (workspaceId : String)
  | getSession (workspaceId sessionId : String)
  | createSession (workspaceId : String)
  | startSession (workspaceId sessionId : String)
  | stopSession (workspaceId sessionId : String)
  | deleteSession (workspaceId sessionId : String)
deriving Repr, DecidableEq

/-- The endpoint URL each client method passes to `request`, exactly as the
template literals in `src/lib/api-client.ts` build it. -/
def opUrl : ApiOp → String
  | .login => "/auth/internal"
  | .externalAuth => "/auth/external"
  | .getCurrentUser => "/auth/me"
  | .healthCheck => "/health"
  | .getVersion => "/version"
  | .getWorkspaces => "/workspaces"
  | .getWorkspace id => "/workspaces/" ++ id
  | .createWorkspace => "/workspaces"
  | .updateWorkspace id => "/workspaces/" ++ id
  | .deleteWorkspace id => "/workspaces/" ++ id
  | .getSessions wid => "/workspaces/" ++ wid ++ "/sessions"
  | .getSession wid sid => "/workspaces/" ++ wid ++ "/sessions/" ++ sid
  | .createSession wid => "/workspaces/" ++ wid ++ "/sessions"
  | .startSession wid sid => "/workspaces/" ++ wid ++ "/sessions/" ++ sid ++ "/start"
  | .stopSession wid sid => "/workspaces/" ++ wid ++ "/sessions/" ++ sid ++ "/stop"
  | .deleteSession wid sid => "/workspaces/" ++ wid ++ "/sessions/" ++ sid

/-- Embeds `publicEndpoints` from the request interceptor. -/
def publicEndpoints : List String :=
  ["/health", "/version", "/auth/internal"]

/-- The request interceptor's classification:
`publicEndpoints.some(endpoint => config.url?.includes(endpoint))`. -/
def isPublicEndpoint (url : String) : Bool :=
  publicEndpoints.any (fun endpoint => strContains url endpoint)

/-- Modelled from the spec: "classify the request as public (login, health,
version) or authenticated" — public exactly for the login, health and
version operations. Stated for comparison with `isPublicEndpoint`. -/
def specPublicOp : ApiOp → Bool
  | .login => true
  | .healthCheck => true
  | .getVersion => true
  | _ => false

/-- The request interceptor (`setupInterceptors`, request side): for a
non-public URL, attach `TokenManager.getAuthHeader()` when it is non-null;
public URLs skip the token store entirely. Returns the attached
`Authorization` value (if any) and the store after the call. -/
def requestInterceptor (url : String) (store : CookieStore) (now : Nat) :
    Option String × CookieStore :=
  if isPublicEndpoint url then (none, store)
  else TokenManager.getAuthHeader store now

/-- The shape of an axios failure as `transformError` discriminates it:
a response with an error status (carrying `response.data?.message` and
`error.message`), a request that got no response, or anything else. -/
inductive AxiosFailure
  | response (status : Nat) (dataMessage : Option String) (errMessage : String)
  | noResponse
  | other (message : String)
deriving Repr, DecidableEq

/-- Embeds `error.response?.status`. -/
def axiosStatus : AxiosFailure → Option Nat
  | .response status _ _ => some status
  | _ => none

/-- Embeds `RaworcApiClient.transformError`: the uniform error shape with a stable
code — the status as a string when a response existed, `NETWORK_ERROR` when
only a request existed, `UNKNOWN_ERROR` otherwise. -/
def transformError : AxiosFailure → ApiError
  | .response status dataMessage errMessage =>
      { message := jsOr dataMessage (jsOrStr errMessage "Server error occurred")
        code := toString status
        hasDetails := true }
  | .noResponse =>
      { message := "Network error - please check your connection"
        code := "NETWORK_ERROR"
        hasDetails := true }
  | .other message =>
      { message := jsOrStr message "Unknown error occurred"
        code := "UNKNOWN_ERROR"
        hasDetails := false }

/-- Outcome of the single HTTP dispatch inside `request`. -/
inductive RequestOutcome (α : Type)
  | success (data : α)
  | failure (f : AxiosFailure)
deriving Repr, DecidableEq

/-- Embeds `RaworcApiClient.request`: wraps the dispatch in try/catch, returning
`{success: true, data}` on success and the interceptor-transformed error
otherwise — it never throws. -/
def request {α : Type} (outcome : RequestOutcome α) : ApiResponse α :=
  match outcome with
  | .success d => .ok d
  | .failure f => .err (transformError f)

/-- The response error interceptor (`setupInterceptors`, response side):
when `error.response?.status === 401`, clear the token store and dispatch
one `auth:logout` event; otherwise do neither. Returns the store after the
call and the number of logout events dispatched. -/
def responseErrorInterceptor (f : AxiosFailure) (store : CookieStore) :
    CookieStore × Nat :=
  if axiosStatus f == some 401 then (TokenManager.clearToken store, 1)
  else (store, 0)

/-- Observable effect of one gateway call. -/
structure CallResult (α : Type) where
  result : ApiResponse α
  store : CookieStore
  logoutSignals : Nat
  callsIssued : Nat
deriving Repr, DecidableEq

/-- One gateway call through `request` for a given operation: a single
dispatch (no retry path exists in `request`), with the response error
interceptor applied to a failure before `request` returns it. The effect
does not depend on which operation issued the call. -/
def gatewayCall {α : Type} (_op : ApiOp) (outcome : RequestOutcome α)
    (store : CookieStore) : CallResult α :=
  match outcome with
  | .success d => ⟨.ok d, store, 0, 1⟩
  | .failure f =>
      let (store2, signals) := responseErrorInterceptor f store
      ⟨.err (transformError f), store2, signals, 1⟩

/-! ### Auth state controller (src/contexts/AuthContext.tsx) -/

/-- Embeds `AuthState` from `AuthContext.tsx`. -/
structure AuthState where
  user : Option User
  isAuthenticated : Bool
  isLoading : Bool
  error : Option String
deriving Repr, DecidableEq

/-- Embeds `AuthAction` from `AuthContext.tsx`. -/
inductive AuthAction
  | AUTH_START
  | AUTH_SUCCESS (payload : User)
  | AUTH_ERROR (payload : String)
  | AUTH_LOGOUT
  | CLEAR_ERROR
deriving Repr, DecidableEq

/-- Embeds `initialState` from `AuthContext.tsx`. -/
def initialState : AuthState :=
  { user := none, isAuthenticated := false, isLoading := true, error := none }

/-- Embeds `authReducer` from `AuthContext.tsx`. -/
def authReducer (state : AuthState) : AuthAction → AuthState
  | .AUTH_START =>
      { state with isLoading := true, error := none }
  | .AUTH_SUCCESS u =>
      { state with user := some u, isAuthenticated := true, isLoading := false,
                   error := none }
  | .AUTH_ERROR m =>
      { state with user := none, isAuthenticated := false, isLoading := false,
                   error := some m }
  | .AUTH_LOGOUT =>
      { state with user := none, isAuthenticated := false, isLoading := false,
                   error := none }
  | .CLEAR_ERROR =>
      { state with error := none }

/-- Embeds `AuthProvider.login`, with the two network outcomes (the gateway never
throws) as parameters: dispatch `AUTH_START`; on login success fetch the
current user; both successes dispatch `AUTH_SUCCESS` and return true; any
failure dispatches `AUTH_ERROR` and returns false. Returns (state after
`AUTH_START`, final state, returned boolean). -/
def loginFlow (st : AuthState) (loginRes : ApiResponse AuthResponse)
    (userRes : ApiResponse User) : AuthState × AuthState × Bool :=
  let s1 := authReducer st .AUTH_START
  match loginRes with
  | .ok _ =>
      match userRes with
      | .ok u => (s1, authReducer s1 (.AUTH_SUCCESS u), true)
      | .err _ =>
          (s1, authReducer s1 (.AUTH_ERROR "Failed to get user information"), false)
  | .err e =>
      (s1, authReducer s1 (.AUTH_ERROR (jsOrStr e.message "Login failed")), false)

/-- Embeds `handleLogout` registered for the `auth:logout` event: dispatch
`AUTH_LOGOUT`. -/
def handleLogout (st : AuthState) : AuthState :=
  authReducer st .AUTH_LOGOUT

/-- The body of the `tokenCheckInterval` callback, as a function of the
auth state the callback closes over and of the token store's current
validity: dispatch `AUTH_LOGOUT` exactly when the store is invalid and the
captured state is authenticated. -/
def tokenCheckTick (capturedState : AuthState) (storeAuthenticated : Bool) :
    Option AuthAction :=
  if !storeAuthenticated && capturedState.isAuthenticated then
    some .AUTH_LOGOUT
  else
    none

/-- The interval callback as actually registered: the `useEffect` that
creates the interval has an empty dependency array, so it runs once after
mount and its callback closes over the first render's `state`, which is
`initialState`. -/
def mountedTokenCheckTick (storeAuthenticated : Bool) : Option AuthAction :=
  tokenCheckTick initialState storeAuthenticated

/-! ### Workspace list controller (WorkspaceList.tsx, CreateWorkspaceModal.tsx) -/

/-- Embeds `handleWorkspaceCreated`: append the entity passed by the modal. -/
def handleWorkspaceCreated (workspaces : List Workspace) (w : Workspace) :
    List Workspace :=
  workspaces ++ [w]

/-- Embeds `handleWorkspaceUpdated`: replace the matching-id element. -/
def handleWorkspaceUpdated (workspaces : List Workspace) (updated : Workspace) :
    List Workspace :=
  workspaces.map (fun w => if w.id == updated.id then updated else w)

/-- Embeds `handleWorkspaceDeleted`: drop every element with the deleted id. -/
def handleWorkspaceDeleted (workspaces : List Workspace) (deletedId : String) :
    List Workspace :=
  workspaces.filter (fun w => w.id != deletedId)

/-- Embeds `CreateWorkspaceModal.handleSubmit` after the create call resolves: on
`{success: true, data}` it calls `onSuccess(response.data)`, which is
`handleWorkspaceCreated`; on failure it only sets a form error, leaving the
list untouched. -/
def createWorkspaceStep (workspaces : List Workspace)
    (resp : ApiResponse Workspace) : List Workspace :=
  match resp with
  | .ok w => handleWorkspaceCreated workspaces w
  | .err _ => workspaces

/-- Embeds `WorkspaceCard.handleDelete` (bundled in
`src/src/components/workspaces/CreateWorkspaceModal.tsx` after the document
separator): after the confirmation dialog it issues the delete call and
invokes `onDelete(workspace.id)` — which is `handleWorkspaceDeleted` — only
when `response.success`; on failure it only alerts, leaving the list
untouched. The `confirm()` dialog ahead of the call is user interaction and
is not modelled. -/
def deleteWorkspaceStep (workspaces : List Workspace) (id : String)
    (resp : ApiResponse Unit) : List Workspace :=
  match resp with
  | .ok _ => handleWorkspaceDeleted workspaces id
  | .err _ => workspaces

/-- Local state of `WorkspaceList`. -/
structure WorkspaceListState where
  workspaces : List Workspace
  error : Option String
  loading : Bool
deriving Repr, DecidableEq

/-- Embeds `WorkspaceList.loadWorkspaces` (always non-silent): clear the error,
replace the list on success, set the error message on failure; the
`finally` block clears the loading flag. -/
def loadWorkspaces (st : WorkspaceListState)
    (resp : ApiResponse (List Workspace)) : WorkspaceListState :=
  let st1 := { st with error := none }
  match resp with
  | .ok data => { st1 with workspaces := data, loading := false }
  | .err e =>
      { st1 with error := some (jsOrStr e.message "Failed to load workspaces"),
                 loading := false }

/-! ### Session list controller (SessionManager.tsx) -/

/-- Local state of `SessionManager`. -/
structure SessionListState where
  sessions : List Session
  error : Option String
  loading : Bool
deriving Repr, DecidableEq

/-- Embeds `SessionManager.loadSessions(silent)`: in non-silent mode clear the
error first; replace the list on success; on failure set the error message
only in non-silent mode; the `finally` block clears the loading flag. -/
def loadSessions (silent : Bool) (st : SessionListState)
    (resp : ApiResponse (List Session)) : SessionListState :=
  let st1 := if silent then st else { st with error := none }
  match resp with
  | .ok data => { st1 with sessions := data, loading := false }
  | .err e =>
      if silent then { st1 with loading := false }
      else
        { st1 with error := some (jsOrStr e.message "Failed to load sessions"),
                   loading := false }

/-- Embeds `handleSessionUpdated`: replace the matching-id element. -/
def handleSessionUpdated (sessions : List Session) (updated : Session) :
    List Session :=
  sessions.map (fun s => if s.id == updated.id then updated else s)

/-- Embeds `handleSessionDeleted`: drop every element with the deleted id. -/
def handleSessionDeleted (sessions : List Session) (deletedId : String) :
    List Session :=
  sessions.filter (fun s => s.id != deletedId)

/-- Embeds `SessionManager.handleStartAll`: filter the current collection for
`stopped` sessions, then sequentially issue one start call per matching
session (`respond` gives each call's outcome); each `{success: true, data}`
response is applied to the running local state via `handleSessionUpdated`
as it resolves, and a failed call leaves the state as it was without
aborting the loop. Returns the final collection and the ids called, in
order. -/
def handleStartAll (respond : Session → ApiResponse Session)
    (sessions : List Session) : List Session × List String :=
  let stoppedSessions := sessions.filter (fun s => s.status == SessionStatus.stopped)
  (stoppedSessions.foldl
    (fun cur s =>
      match respond s with
      | .ok updated => handleSessionUpdated cur updated
      | .err _ => cur)
    sessions,
   stoppedSessions.map (fun s => s.id))

/-- Embeds `SessionManager.handleStopAll`: the same loop over the sessions whose
current status is `running`, issuing stop calls. -/
def handleStopAll (respond : Session → ApiResponse Session)
    (sessions : List Session) : List Session × List String :=
  let runningSessions := sessions.filter (fun s => s.status == SessionStatus.running)
  (runningSessions.foldl
    (fun cur s =>
      match respond s with
      | .ok updated => handleSessionUpdated cur updated
      | .err _ => cur)
    sessions,
   runningSessions.map (fun s => s.id))

/-- The sequence of resolved responses for a todo list, applied to one
element of the collection, as `handleSessionUpdated` acts pointwise: each
successful response replaces the element exactly when the element's id
matches the returned session's id, and a failed response leaves it
unchanged. -/
def applyResponses (f : Session → ApiResponse Session)
    (todo : List Session) (t : Session) : Session :=
  todo.foldl
    (fun t0 s =>
      match f s with
      | .ok u => if t0.id == u.id then u else t0
      | .err _ => t0)
    t

/-! ### Mock server (mock-server.js) -/

/-- Replace the first element with the given id (JavaScript `find` returns
a reference and the handler mutates it in place). -/
def setFirstById : List Session → String → Session → List Session
  | [], _, _ => []
  | t :: ts, sid, s2 =>
      if t.id == sid then s2 :: ts else t :: setFirstById ts sid s2

/-- Embeds `POST /workspaces/:workspaceId/sessions/:sessionId/start`: find the
session, set its status to `running` and refresh `updated_at`, and return
it; 404 when absent. -/
def serverStartSession (sessions : List Session) (sessionId : String)
    (nowIso : String) : Except Nat (Session × List Session) :=
  match sessions.find? (fun s => s.id == sessionId) with
  | some s =>
      let s2 := { s with status := SessionStatus.running, updated_at := nowIso }
      Except.ok (s2, setFirstById sessions sessionId s2)
  | none => Except.error 404

/-- Embeds `POST /workspaces/:workspaceId/sessions/:sessionId/stop`: the same with
status `stopped`. -/
def serverStopSession (sessions : List Session) (sessionId : String)
    (nowIso : String) : Except Nat (Session × List Session) :=
  match sessions.find? (fun s => s.id == sessionId) with
  | some s =>
      let s2 := { s with status := SessionStatus.stopped, updated_at := nowIso }
      Except.ok (s2, setFirstById sessions sessionId s2)
  | none => Except.error 404

/-- Request body of `POST /workspaces`. -/
structure CreateWorkspaceRequest where
  name : String
  description : Option String
deriving Repr, DecidableEq

/-- Embeds `POST /workspaces`: build the workspace with the server-generated id
`ws-${Date.now()}`, the request body's fields and fresh timestamps, push it
and return it. -/
def serverCreateWorkspace (workspaces : List Workspace)
    (body : CreateWorkspaceRequest) (nowMs : Nat) (nowIso : String) :
    Workspace × List Workspace :=
  let w : Workspace :=
    { id := "ws-" ++ toString nowMs
      name := body.name
      description := body.description
      created_at := nowIso
      updated_at := nowIso }
  (w, workspaces ++ [w])

/-- Embeds `DELETE /workspaces/:id`: filter the collection by id. -/
def serverDeleteWorkspace (workspaces : List Workspace) (id : String) :
    List Workspace :=
  workspaces.filter (fun w => w.id != id)

/-! ### Concrete fixtures (from the mock server's seed data) -/

/-- The seeded running session `sess-1` of `mock-server.js`. -/
def demoRunningSession : Session :=
  { id := "sess-1", workspace_id := "ws-1", name := "Web Server"
    status := SessionStatus.running
    created_at := "2024-01-15T11:00:00Z", updated_at := "2024-01-15T11:00:00Z"
    container_info := none }

/-- The seeded stopped session `sess-2` of `mock-server.js`. -/
def demoStoppedSession : Session :=
  { id := "sess-2", workspace_id := "ws-1", name := "Database"
    status := SessionStatus.stopped
    created_at := "2024-01-15T11:30:00Z", updated_at := "2024-01-15T11:30:00Z"
    container_info := none }

/-- The seeded stopped session after the mock server's start handler has
run on it at timestamp `"t"`. -/
def demoStartedSession : Session :=
  { demoStoppedSession with status := SessionStatus.running, updated_at := "t" }

/-- A responder of the mock server's start-handler shape: it succeeds with
the same session switched to `running`. -/
def demoStartResponder (s : Session) : ApiResponse Session :=
  ApiResponse.ok { s with status := SessionStatus.running }

/-- The seeded stopped session after a successful start response. -/
def demoStoppedNowRunning : Session :=
  { demoStoppedSession with status := SessionStatus.running }

/-- The seeded workspace `ws-1` of `mock-server.js`. -/
def demoWorkspace : Workspace :=
  { id := "ws-1", name := "Development Environment"
    description := some "Main development workspace"
    created_at := "2024-01-15T10:00:00Z", updated_at := "2024-01-15T10:00:00Z" }

/-! ### Claims -/

/-- C10 invariant: the auth flag mirrors the presence of a user, and an
error message is only ever held in an unauthenticated state. -/
def authInvariant (st : AuthState) : Prop :=
  st.isAuthenticated = st.user.isSome ∧
  (st.isAuthenticated && st.error.isSome) = false

/-- The invariant is preserved by every reducer action. -/
theorem authInvariant_step (st : AuthState) (a : AuthAction)
    (h : authInvariant st) : authInvariant (authReducer st a) := by
  obtain ⟨h1, h2⟩ := h
  cases a <;> simp [authReducer, authInvariant, h1, h2] at *

/-- C1: a response with HTTP status 401, whatever operation issued the
call, clears both token-store entries, emits exactly one logout signal with
no retry of the call, and the auth controller's handler for that signal
leaves the state unauthenticated with the user cleared. -/
theorem claim_C1_401_clears_store_and_logs_out (α : Type) (op : ApiOp)
    (dm : Option String) (em : String) (store : CookieStore) (st : AuthState) :
    (gatewayCall op (.failure (.response 401 dm em) : RequestOutcome α) store).store =
      CookieStore.empty ∧
    (gatewayCall op (.failure (.response 401 dm em) : RequestOutcome α) store).logoutSignals = 1 ∧
    (gatewayCall op (.failure (.response 401 dm em) : RequestOutcome α) store).callsIssued = 1 ∧
    (handleLogout st).user = none ∧
    (handleLogout st).isAuthenticated = false := by
  refine ⟨rfl, rfl, rfl, ?_, ?_⟩ <;> simp [handleLogout, authReducer]

/-- C2 as stated is false: with a token entry present but no expiry entry,
`getToken` returns absent yet leaves the token entry in the store instead
of clearing both entries. -/
theorem claim_C2_counterexample :
    (TokenManager.getToken ⟨some "tok", none⟩ 5).1 = none ∧
    (TokenManager.getToken ⟨some "tok", none⟩ 5).2 ≠ CookieStore.empty := by
  constructor
  · rfl
  · decide

/-- C2 amended: `getToken` returns the stored token exactly when both
entries are present and the expiry is strictly in the future; when both are
present and the expiry has passed it clears the store and returns absent;
when either entry is absent it returns absent leaving the store unchanged;
`isAuthenticated` is true exactly for stored (token, expiry-in-future)
pairs, and a call at or after the expiry returns false and empties the
store. -/
theorem claim_C2_get_token_validity (t : String) (e now : Nat) (x : Option Nat) :
    TokenManager.getToken ⟨some t, some e⟩ now =
      (if now < e then (some t, (⟨some t, some e⟩ : CookieStore))
       else (none, CookieStore.empty)) ∧
    TokenManager.getToken ⟨none, x⟩ now = (none, ⟨none, x⟩) ∧
    TokenManager.getToken ⟨some t, none⟩ now = (none, ⟨some t, none⟩) ∧
    (TokenManager.isAuthenticated ⟨some t, some e⟩ now).1 = decide (now < e) ∧
    (TokenManager.isAuthenticated ⟨none, x⟩ now).1 = false ∧
    (TokenManager.isAuthenticated ⟨some t, none⟩ now).1 = false ∧
    (TokenManager.isAuthenticated ⟨some t, some e⟩ now).2 =
      (if now < e then (⟨some t, some e⟩ : CookieStore) else CookieStore.empty) := by
  have hiff : (e ≤ now) = ¬(now < e) := by
    simp [Nat.not_lt]
  refine ⟨?_, rfl, rfl, ?_, rfl, rfl, ?_⟩ <;>
    · simp only [TokenManager.getToken, TokenManager.isAuthenticated,
        TokenManager.clearToken]
      rcases Nat.lt_or_ge now e with h | h
      · simp [Nat.not_le.mpr h, h]
      · simp [h, Nat.not_lt.mpr h]

/-- C3: `login` first enters the loading state; when both the login call
and the user fetch succeed the controller ends authenticated holding the
fetched user and returns true; when either call fails it ends
unauthenticated with a non-empty error message and returns false — a token
obtained by a successful login whose user fetch fails is a failed login. -/
theorem claim_C3_login_no_partial_state (st : AuthState) (a : AuthResponse)
    (u : User) (e e2 : ApiError) (loginRes : ApiResponse AuthResponse)
    (userRes userRes2 : ApiResponse User) :
    (loginFlow st loginRes userRes).1.isLoading = true ∧
    loginFlow st (.ok a) (.ok u) =
      (authReducer st .AUTH_START,
       { user := some u, isAuthenticated := true, isLoading := false,
         error := none },
       true) ∧
    loginFlow st (.err e) userRes2 =
      (authReducer st .AUTH_START,
       { user := none, isAuthenticated := false, isLoading := false,
         error := some (jsOrStr e.message "Login failed") },
       false) ∧
    loginFlow st (.ok a) (.err e2) =
      (authReducer st .AUTH_START,
       { user := none, isAuthenticated := false, isLoading := false,
         error := some "Failed to get user information" },
       false) ∧
    (jsOrStr e.message "Login failed").isEmpty = false := by
  refine ⟨?_, ?_, ?_, ?_, ?_⟩
  · cases loginRes <;> cases userRes <;> simp [loginFlow, authReducer]
  · simp [loginFlow, authReducer]
  · simp [loginFlow, authReducer]
  · simp [loginFlow, authReducer]
  · by_cases h : e.message.isEmpty
    · simp only [jsOrStr, h, if_true]
      decide
    · simp [jsOrStr, h]

/-- C4 is the claim's intent but not the code's behaviour: the interval
callback is registered by a `useEffect` with an empty dependency array and
closes over the mount-time state (`initialState`, unauthenticated), so even
on a tick where the token store is invalid it dispatches nothing; with the
current state in scope the guard would dispatch `AUTH_LOGOUT`. -/
theorem claim_C4_stale_closure_never_dispatches :
    mountedTokenCheckTick false = none ∧
    initialState.isAuthenticated = false ∧
    (∀ u, tokenCheckTick (authReducer initialState (.AUTH_SUCCESS u)) false =
      some AuthAction.AUTH_LOGOUT) := by
  refine ⟨rfl, rfl, fun u => ?_⟩
  simp [tokenCheckTick, authReducer]

/-- C5: every gateway method returns the uniform success/error result and
never throws (`request` is total and `gatewayCall` returns exactly its
result); the error code is the HTTP status rendered as a string when a
response existed, `NETWORK_ERROR` when a request got no response, and
`UNKNOWN_ERROR` otherwise. -/
theorem claim_C5_uniform_result_and_codes (α : Type) (op : ApiOp) (d : α)
    (outcome : RequestOutcome α) (store : CookieStore) (status : Nat)
    (dm : Option String) (em msg : String) :
    request (.success d : RequestOutcome α) = .ok d ∧
    (gatewayCall op outcome store).result = request outcome ∧
    (transformError (.response status dm em)).code = toString status ∧
    (transformError .noResponse).code = "NETWORK_ERROR" ∧
    (transformError (.other msg)).code = "UNKNOWN_ERROR" := by
  refine ⟨rfl, ?_, rfl, rfl, rfl⟩
  cases outcome <;> rfl

/-- C6 as stated is false: classification is by substring containment, so
`GET /workspaces/health` — an authenticated workspace fetch, not the health
endpoint — is classified public. -/
theorem claim_C6_counterexample :
    isPublicEndpoint (opUrl (ApiOp.getWorkspace "health")) = true ∧
    specPublicOp (ApiOp.getWorkspace "health") = false := by
  constructor
  · decide
  · rfl

/-- C6 amended: a request is public exactly when its URL contains one of
the substrings `/health`, `/version`, `/auth/internal` — so the login,
health and version endpoints are public, but other URLs containing those
substrings are too; a non-public request carries
`Authorization: Bearer <token>` exactly when the store holds a valid
token, and a public request, or one without a valid token, carries no
Authorization header. -/
theorem claim_C6_classification_and_header (url t : String) (e now : Nat)
    (x : Option Nat) :
    isPublicEndpoint (opUrl ApiOp.login) = true ∧
    isPublicEndpoint (opUrl ApiOp.healthCheck) = true ∧
    isPublicEndpoint (opUrl ApiOp.getVersion) = true ∧
    requestInterceptor url ⟨some t, some e⟩ now =
      (if isPublicEndpoint url then ((none : Option String), (⟨some t, some e⟩ : CookieStore))
       else if now < e then (some ("Bearer " ++ t), ⟨some t, some e⟩)
       else (none, CookieStore.empty)) ∧
    requestInterceptor url ⟨none, x⟩ now = (none, ⟨none, x⟩) ∧
    requestInterceptor url ⟨some t, none⟩ now = (none, ⟨some t, none⟩) := by
  refine ⟨by decide, by decide, by decide, ?_, ?_, ?_⟩ <;>
    · simp only [requestInterceptor, TokenManager.getAuthHeader,
        TokenManager.getToken, TokenManager.clearToken]
      by_cases hpub : isPublicEndpoint url <;>
        rcases Nat.lt_or_ge now e with h | h <;>
          simp [hpub, h, Nat.not_le.mpr, Nat.not_lt.mpr, Nat.le_of_lt]

/-- Folding the response applications of a todo list over the collection,
as the `startAll`/`stopAll` loop does, acts elementwise: it is the map of
the per-element response application. -/
theorem foldl_update_eq_map (f : Session → ApiResponse Session)
    (todo : List Session) : ∀ cur : List Session,
    todo.foldl
      (fun c s =>
        match f s with
        | .ok u => handleSessionUpdated c u
        | .err _ => c)
      cur
    = cur.map (applyResponses f todo) := by
  induction todo with
  | nil =>
      intro cur
      have hid : applyResponses f [] = fun t => t := rfl
      rw [hid]
      exact (List.map_id' cur).symm
  | cons s rest ih =>
      intro cur
      cases hf : f s with
      | ok u =>
          simp only [List.foldl_cons, hf]
          rw [ih (handleSessionUpdated cur u)]
          unfold handleSessionUpdated
          rw [List.map_map]
          apply List.map_congr_left
          intro t _
          simp [applyResponses, hf, Function.comp]
      | err e =>
          simp only [List.foldl_cons, hf]
          rw [ih cur]
          apply List.map_congr_left
          intro t _
          simp [applyResponses, hf]

/-- An element whose id none of the todo list's responses carries is left
unchanged by the response applications (given id-preserving responses). -/
theorem applyResponses_of_untargeted (f : Session → ApiResponse Session)
    (todo : List Session) : ∀ (t0 : Session) (tid : String), t0.id = tid →
    (∀ s ∈ todo, ∀ u, f s = ApiResponse.ok u → u.id = s.id) →
    (∀ s ∈ todo, s.id ≠ tid) →
    applyResponses f todo t0 = t0 := by
  induction todo with
  | nil =>
      intro t0 tid _ _ _
      rfl
  | cons s rest ih =>
      intro t0 tid h0 hids hne
      cases hf : f s with
      | ok u =>
          have hu : u.id = s.id := hids s (List.mem_cons_self s rest) u hf
          have hne0 : t0.id ≠ u.id := by
            intro hEq
            exact hne s (List.mem_cons_self s rest) (by rw [← hu, ← hEq]; exact h0)
          have step : applyResponses f (s :: rest) t0 = applyResponses f rest t0 := by
            simp [applyResponses, hf, hne0]
          rw [step]
          exact ih t0 tid h0 (fun x hx u2 h2 => hids x (List.mem_cons_of_mem s hx) u2 h2)
            (fun x hx => hne x (List.mem_cons_of_mem s hx))
      | err e =>
          have step : applyResponses f (s :: rest) t0 = applyResponses f rest t0 := by
            simp [applyResponses, hf]
          rw [step]
          exact ih t0 tid h0 (fun x hx u2 h2 => hids x (List.mem_cons_of_mem s hx) u2 h2)
            (fun x hx => hne x (List.mem_cons_of_mem s hx))

/-- The response applications compose over list append. -/
theorem applyResponses_append (f : Session → ApiResponse Session)
    (l1 l2 : List Session) (t : Session) :
    applyResponses f (l1 ++ l2) t = applyResponses f l2 (applyResponses f l1 t) := by
  simp [applyResponses, List.foldl_append]

/-- With pairwise-distinct ids and id-preserving responses, applying the
responses issued for the filtered sublist to an element of the collection
replaces it by its own response exactly when it passes the filter, and
leaves it unchanged otherwise. -/
theorem applyResponses_filter (p : Session → Bool)
    (f : Session → ApiResponse Session) (sessions : List Session)
    (hnodup : (sessions.map (fun s => s.id)).Nodup)
    (hpres : ∀ s u, f s = ApiResponse.ok u → u.id = s.id)
    (t : Session) (ht : t ∈ sessions) :
    applyResponses f (sessions.filter p) t =
      (if p t then
        (match f t with
         | ApiResponse.ok u => u
         | ApiResponse.err _ => t)
       else t) := by
  have hinj : ∀ x ∈ sessions, ∀ y ∈ sessions, x.id = y.id → x = y :=
    fun x hx y hy hxy => List.inj_on_of_nodup_map hnodup hx hy hxy
  cases hpt : p t with
  | false =>
      rw [if_neg (by simp [hpt])]
      apply applyResponses_of_untargeted f (sessions.filter p) t t.id rfl
        (fun s _ u hu => hpres s u hu)
      intro s hs hsid
      have hsmem := (List.mem_filter.mp hs).1
      have hsp := (List.mem_filter.mp hs).2
      rw [hinj s hsmem t ht hsid, hpt] at hsp
      exact absurd hsp (by simp)
  | true =>
      rw [if_pos (by simp [hpt])]
      have htf : t ∈ sessions.filter p := List.mem_filter.mpr ⟨ht, hpt⟩
      obtain ⟨l1, l2, hdecomp⟩ := List.append_of_mem htf
      have hfn : (sessions.filter p).Nodup := (List.Nodup.of_map _ hnodup).filter p
      rw [hdecomp] at hfn
      have ht_not_l1 : t ∉ l1 := fun hmem =>
        (List.disjoint_of_nodup_append hfn) hmem (List.mem_cons_self t l2)
      have ht_not_l2 : t ∉ l2 := (List.nodup_cons.mp (List.nodup_append.mp hfn).2.1).1
      have hmem_sessions : ∀ s, s ∈ l1 ∨ s ∈ t :: l2 → s ∈ sessions := by
        intro s hs
        have : s ∈ sessions.filter p := by
          rw [hdecomp]
          exact List.mem_append.mpr (by simpa using hs)
        exact (List.mem_filter.mp this).1
      have hne1 : ∀ s ∈ l1, s.id ≠ t.id := by
        intro s hs hsid
        rw [hinj s (hmem_sessions s (Or.inl hs)) t ht hsid] at hs
        exact ht_not_l1 hs
      have hne2 : ∀ s ∈ l2, s.id ≠ t.id := by
        intro s hs hsid
        rw [hinj s (hmem_sessions s (Or.inr (List.mem_cons_of_mem t hs))) t ht hsid] at hs
        exact ht_not_l2 hs
      rw [hdecomp, applyResponses_append,
        applyResponses_of_untargeted f l1 t t.id rfl
          (fun s _ u hu => hpres s u hu) hne1]
      cases hft : f t with
      | ok u =>
          have hu : u.id = t.id := hpres t u hft
          have step : applyResponses f (t :: l2) t = applyResponses f l2 u := by
            simp [applyResponses, hft, hu]
          rw [step,
            applyResponses_of_untargeted f l2 u t.id hu
              (fun s _ u2 hu2 => hpres s u2 hu2) hne2]
      | err e =>
          have step : applyResponses f (t :: l2) t = applyResponses f l2 t := by
            simp [applyResponses, hft]
          rw [step,
            applyResponses_of_untargeted f l2 t t.id rfl
              (fun s _ u2 hu2 => hpres s u2 hu2) hne2]

/-- The collection component of `startAll` is the elementwise application
of the responses issued for the stopped sessions. -/
theorem handleStartAll_fst (f : Session → ApiResponse Session)
    (sessions : List Session) :
    (handleStartAll f sessions).1 =
      sessions.map
        (applyResponses f
          (sessions.filter (fun s => s.status == SessionStatus.stopped))) :=
  foldl_update_eq_map f
    (sessions.filter (fun s => s.status == SessionStatus.stopped)) sessions

/-- The collection component of `stopAll` is the elementwise application
of the responses issued for the running sessions. -/
theorem handleStopAll_fst (f : Session → ApiResponse Session)
    (sessions : List Session) :
    (handleStopAll f sessions).1 =
      sessions.map
        (applyResponses f
          (sessions.filter (fun s => s.status == SessionStatus.running))) :=
  foldl_update_eq_map f
    (sessions.filter (fun s => s.status == SessionStatus.running)) sessions

/-- C7: `startAll` issues exactly one start call per currently-`stopped`
session, in list order, and `stopAll` one stop call per `running` session;
the calls issued do not depend on the individual responses (a failure does
not abort the rest); when every session is `running`, `startAll` issues no
call; the server's start (stop) handler returns the session with status
`running` (`stopped`); and the resulting local collection is the
elementwise application of the issued calls' responses — in particular,
with pairwise-distinct ids and responses carrying the called session's id,
each successful response replaces exactly the matching-id element while a
failed call leaves its element unchanged. -/
theorem claim_C7_start_stop_all (f g : Session → ApiResponse Session)
    (sessions : List Session) (sid nowIso : String) :
    (handleStartAll f sessions).2 =
      (sessions.filter (fun s => s.status == SessionStatus.stopped)).map
        (fun s => s.id) ∧
    (handleStartAll f sessions).2 = (handleStartAll g sessions).2 ∧
    (handleStopAll f sessions).2 =
      (sessions.filter (fun s => s.status == SessionStatus.running)).map
        (fun s => s.id) ∧
    ((∀ s ∈ sessions, s.status = SessionStatus.running) →
      (handleStartAll f sessions).2 = []) ∧
    (∀ sess rest,
      serverStartSession sessions sid nowIso = Except.ok (sess, rest) →
      sess.status = SessionStatus.running) ∧
    (∀ sess rest,
      serverStopSession sessions sid nowIso = Except.ok (sess, rest) →
      sess.status = SessionStatus.stopped) ∧
    (handleStartAll f sessions).1 =
      sessions.map
        (applyResponses f
          (sessions.filter (fun s => s.status == SessionStatus.stopped))) ∧
    ((sessions.map (fun s => s.id)).Nodup →
      (∀ s u, f s = ApiResponse.ok u → u.id = s.id) →
      (handleStartAll f sessions).1 =
        sessions.map (fun s =>
          if s.status == SessionStatus.stopped then
            (match f s with
             | ApiResponse.ok u => u
             | ApiResponse.err _ => s)
          else s)) ∧
    ((sessions.map (fun s => s.id)).Nodup →
      (∀ s u, f s = ApiResponse.ok u → u.id = s.id) →
      (handleStopAll f sessions).1 =
        sessions.map (fun s =>
          if s.status == SessionStatus.running then
            (match f s with
             | ApiResponse.ok u => u
             | ApiResponse.err _ => s)
          else s)) := by
  refine ⟨rfl, rfl, rfl, ?_, ?_, ?_, handleStartAll_fst f sessions, ?_, ?_⟩
  · intro h
    have hnil : sessions.filter (fun s => s.status == SessionStatus.stopped) = [] := by
      rw [List.filter_eq_nil_iff]
      intro s hs
      simp [h s hs]
    simp [handleStartAll, hnil]
  · intro sess rest hok
    cases hfind : sessions.find? (fun s => s.id == sid) with
    | none => simp [serverStartSession, hfind] at hok
    | some s =>
        simp [serverStartSession, hfind] at hok
        rw [← hok.1]
  · intro sess rest hok
    cases hfind : sessions.find? (fun s => s.id == sid) with
    | none => simp [serverStopSession, hfind] at hok
    | some s =>
        simp [serverStopSession, hfind] at hok
        rw [← hok.1]
  · intro hnodup hpres
    rw [handleStartAll_fst f sessions]
    apply List.map_congr_left
    intro t ht
    exact applyResponses_filter (fun s => s.status == SessionStatus.stopped) f
      sessions hnodup hpres t ht
  · intro hnodup hpres
    rw [handleStopAll_fst f sessions]
    apply List.map_congr_left
    intro t ht
    exact applyResponses_filter (fun s => s.status == SessionStatus.running) f
      sessions hnodup hpres t ht

/-- Witness for C7: on the seeded all-running list, `startAll` issues no
call; the server's start handler applied to the seeded stopped session
yields a `running` session; and on the seeded two-session list, with every
start call succeeding, `startAll` replaces exactly the stopped session by
its running update and leaves the running one untouched. -/
theorem claim_C7_witness :
    (handleStartAll (fun s => ApiResponse.ok s) [demoRunningSession]).2 = [] ∧
    demoStartedSession.status = SessionStatus.running ∧
    (handleStartAll demoStartResponder [demoRunningSession, demoStoppedSession]).1 =
      [demoRunningSession, demoStoppedNowRunning] :=
  ⟨(claim_C7_start_stop_all (fun s => ApiResponse.ok s)
      (fun s => ApiResponse.ok s) [demoRunningSession] "sess-1" "t").2.2.2.1
      (by intro s hs; rw [List.mem_singleton] at hs; subst hs; rfl),
   (claim_C7_start_stop_all (fun s => ApiResponse.ok s)
      (fun s => ApiResponse.ok s) [demoStoppedSession] "sess-2" "t").2.2.2.2.1
      demoStartedSession [demoStartedSession] (by rfl),
   ((claim_C7_start_stop_all demoStartResponder demoStartResponder
      [demoRunningSession, demoStoppedSession] "sess-1" "t").2.2.2.2.2.2.2.1
      (by decide)
      (by
        intro s u h
        simp only [demoStartResponder, ApiResponse.ok.injEq] at h
        subst h
        rfl)).trans (by decide)⟩

/-- C8: after a successful create, the local workspace list is the prior
list with exactly the server-returned entity appended — whose id and
timestamps the server assigned; after a successful delete(id) every entry
with that id is gone and every other entry remains; a failed call leaves
the list untouched. -/
theorem claim_C8_workspace_reconciliation (workspaces serverWs : List Workspace)
    (w : Workspace) (er : ApiError) (id : String)
    (body : CreateWorkspaceRequest) (nowMs : Nat) (nowIso : String) :
    createWorkspaceStep workspaces (.ok w) = workspaces ++ [w] ∧
    createWorkspaceStep workspaces (.err er) = workspaces ∧
    deleteWorkspaceStep workspaces id (.err er) = workspaces ∧
    (serverCreateWorkspace serverWs body nowMs nowIso).1.id =
      "ws-" ++ toString nowMs ∧
    (serverCreateWorkspace serverWs body nowMs nowIso).1.name = body.name ∧
    (serverCreateWorkspace serverWs body nowMs nowIso).1.created_at = nowIso ∧
    (serverCreateWorkspace serverWs body nowMs nowIso).1.updated_at = nowIso ∧
    (serverCreateWorkspace serverWs body nowMs nowIso).2 =
      serverWs ++ [(serverCreateWorkspace serverWs body nowMs nowIso).1] ∧
    (∀ w2 ∈ deleteWorkspaceStep workspaces id (.ok ()), w2.id ≠ id) ∧
    (∀ w2 ∈ workspaces, w2.id ≠ id →
      w2 ∈ deleteWorkspaceStep workspaces id (.ok ())) := by
  refine ⟨rfl, rfl, rfl, rfl, rfl, rfl, rfl, rfl, ?_, ?_⟩
  · intro w2 hw2
    simp [deleteWorkspaceStep, handleWorkspaceDeleted, List.mem_filter] at hw2
    exact hw2.2
  · intro w2 hw2 hne
    simp [deleteWorkspaceStep, handleWorkspaceDeleted, List.mem_filter]
    exact ⟨hw2, hne⟩

/-- Witness for C8: deleting the id `ws-2` keeps the seeded `ws-1`
workspace in the list. -/
theorem claim_C8_witness :
    demoWorkspace ∈ deleteWorkspaceStep [demoWorkspace] "ws-2" (.ok ()) :=
  (claim_C8_workspace_reconciliation [demoWorkspace] [] demoWorkspace
      ⟨"boom", "500", true⟩ "ws-2" ⟨"Dev", none⟩ 0 "t").2.2.2.2.2.2.2.2.2
    demoWorkspace (by simp) (by decide)

/-- C9: `load()` on success replaces the entire local collection; on
failure the collection is unchanged and an error message is surfaced only
in non-silent mode — a silent load never changes the error state. -/
theorem claim_C9_load_replaces_or_preserves (silent : Bool)
    (st : SessionListState) (wst : WorkspaceListState) (data : List Session)
    (wdata : List Workspace) (e : ApiError) :
    (loadSessions silent st (.ok data)).sessions = data ∧
    (loadSessions silent st (.err e)).sessions = st.sessions ∧
    (loadSessions true st (.ok data)).error = st.error ∧
    (loadSessions true st (.err e)).error = st.error ∧
    (loadSessions false st (.err e)).error =
      some (jsOrStr e.message "Failed to load sessions") ∧
    (loadWorkspaces wst (.ok wdata)).workspaces = wdata ∧
    (loadWorkspaces wst (.err e)).workspaces = wst.workspaces ∧
    (loadWorkspaces wst (.err e)).error =
      some (jsOrStr e.message "Failed to load workspaces") := by
  refine ⟨?_, ?_, rfl, rfl, rfl, rfl, rfl, rfl⟩ <;>
    cases silent <;> rfl

/-- C10: starting from the initial state, after any sequence of reducer
actions the auth flag equals the presence of a user, and an error message
is never held while authenticated. -/
theorem claim_C10_reducer_invariant (acts : List AuthAction) :
    ((acts.foldl authReducer initialState).isAuthenticated =
      (acts.foldl authReducer initialState).user.isSome) ∧
    ((acts.foldl authReducer initialState).isAuthenticated &&
      (acts.foldl authReducer initialState).error.isSome) = false := by
  have hinit : authInvariant initialState := by constructor <;> rfl
  have main : ∀ (l : List AuthAction) (st : AuthState), authInvariant st →
      authInvariant (l.foldl authReducer st) := by
    intro l
    induction l with
    | nil => intro st h; exact h
    | cons a l ih =>
        intro st h
        exact ih _ (authInvariant_step st a h)
  exact main acts initialState hinit

end RaworcBench
